import Mathlib

/- Verification model of `src/main/salt_level_monitor.c` (water-softener salt
level monitor firmware).  The C program is shallowly embedded: the Wi-Fi event
handler and the MQTT/sensor task become explicit state machines over event
traces, floats become rationals, and each MQTT publish call is recorded as a
`MqttMsg` value.  Buffer sizes of `snprintf` are not modelled (the formatted
strings fit the buffers for realistic client identifiers). -/

namespace SaltLevel

/-- Boot-time configuration constants: CONFIG_MQTT_CLIENT_ID,
CONFIG_TANK_HEIGHT_CM, CONFIG_READING_INTERVAL_SEC. -/
structure Config where
  clientId : String
  tankHeightCm : ℕ
  readingIntervalSec : ℕ
deriving DecidableEq

/-- State owned by the Wi-Fi `event_handler`: the retry counter `s_retry_num`,
the two event-group bits WIFI_CONNECTED_BIT and WIFI_FAIL_BIT, and a count of
`esp_wifi_connect()` calls (connection attempts). -/
structure WifiState where
  retryNum : ℕ
  connectedBit : Bool
  failBit : Bool
  connectAttempts : ℕ
deriving DecidableEq

/-- The three events the Wi-Fi `event_handler` reacts to:
WIFI_EVENT_STA_START, WIFI_EVENT_STA_DISCONNECTED, IP_EVENT_STA_GOT_IP. -/
inductive WifiEv
  | staStart
  | staDisconnected
  | gotIp
deriving DecidableEq

/-- The Wi-Fi `event_handler` from the source, as a transition function.
`maxRetry` is CONFIG_WIFI_MAXIMUM_RETRY. -/
def event_handler (maxRetry : ℕ) (s : WifiState) : WifiEv → WifiState
  | .staStart => { s with connectAttempts := s.connectAttempts + 1 }
  | .staDisconnected =>
      if s.retryNum < maxRetry then
        { s with connectAttempts := s.connectAttempts + 1,
                 retryNum := s.retryNum + 1 }
      else
        { s with failBit := true }
  | .gotIp => { s with retryNum := 0, connectedBit := true }

/-- Initial Wi-Fi state: `s_retry_num = 0`, both event-group bits clear. -/
def wifiInit : WifiState := ⟨0, false, false, 0⟩

/-- Deliver a sequence of Wi-Fi events to `event_handler`. -/
def runWifi (maxRetry : ℕ) (s : WifiState) (tr : List WifiEv) : WifiState :=
  tr.foldl (event_handler maxRetry) s

/-- One `esp_mqtt_client_publish(client, topic, payload, 0, qos, retain)`
call. -/
structure MqttMsg where
  topic : String
  payload : String
  qos : ℕ
  retain : Bool
deriving DecidableEq

/-- State topic `homeassistant/sensor/%s/state` built in `sensor_task` and in
both discovery payloads. -/
def stateTopic (clientId : String) : String :=
  "homeassistant/sensor/" ++ clientId ++ "/state"

/-- Discovery config topic for the distance entity. -/
def distanceConfigTopic (clientId : String) : String :=
  "homeassistant/sensor/" ++ clientId ++ "/distance/config"

/-- Discovery config topic for the percentage entity. -/
def percentageConfigTopic (clientId : String) : String :=
  "homeassistant/sensor/" ++ clientId ++ "/percentage/config"

/-- The device block of the distance discovery payload: the full device
descriptor with identifiers, display name, model and manufacturer. -/
def fullDeviceBlock (clientId : String) : String :=
  "\"device\":\x7b\"identifiers\":[\"" ++ clientId ++ "\"]," ++
  "\"name\":\"Water Softener Salt Level\"," ++
  "\"model\":\"ESP32 HC-SR04\"," ++
  "\"manufacturer\":\"DIY\"\x7d"

/-- The device block of the percentage discovery payload: identifiers only. -/
def minimalDeviceBlock (clientId : String) : String :=
  "\"device\":\x7b\"identifiers\":[\"" ++ clientId ++ "\"]\x7d"

/-- JSON payload of the distance discovery message (first `snprintf` format
string of `publish_ha_discovery`, with `%s` filled by the client id). -/
def distanceConfigPayload (clientId : String) : String :=
  "\x7b\"name\":\"Salt Level Distance\"," ++
  "\"state_topic\":\"" ++ stateTopic clientId ++ "\"," ++
  "\"unit_of_measurement\":\"cm\"," ++
  "\"value_template\":\"\x7b\x7b value_json.distance \x7d\x7d\"," ++
  "\"unique_id\":\"" ++ clientId ++ "_distance\"," ++
  fullDeviceBlock clientId ++ "\x7d"

/-- JSON payload of the percentage discovery message (second `snprintf` format
string of `publish_ha_discovery`; `%%` renders as a single percent sign). -/
def percentageConfigPayload (clientId : String) : String :=
  "\x7b\"name\":\"Salt Level Percentage\"," ++
  "\"state_topic\":\"" ++ stateTopic clientId ++ "\"," ++
  "\"unit_of_measurement\":\"%\"," ++
  "\"value_template\":\"\x7b\x7b value_json.percentage \x7d\x7d\"," ++
  "\"unique_id\":\"" ++ clientId ++ "_percentage\"," ++
  minimalDeviceBlock clientId ++ "\x7d"

/-- `publish_ha_discovery`: the list of MQTT publishes it performs, given the
current value of the `mqtt_connected` flag.  When not connected it logs
"MQTT not connected, skipping discovery" and returns without publishing;
otherwise it publishes the two retained QoS-1 config messages. -/
def publish_ha_discovery (connected : Bool) (clientId : String) : List MqttMsg :=
  if !connected then []
  else
    [ ⟨distanceConfigTopic clientId, distanceConfigPayload clientId, 1, true⟩,
      ⟨percentageConfigTopic clientId, percentageConfigPayload clientId, 1, true⟩ ]

/-- `read_distance_cm`: mock sensor reading.  `count` is the value of the
static counter after the increment at the top of the function; the reading is
`10.0f + (count % 50) * 1.5f`. -/
def read_distance_cm (count : ℕ) : ℚ :=
  10 + ((count % 50 : ℕ) : ℚ) * (3 / 2)

/-- `calculate_percentage`: invert the distance against the tank height, scale
to a percentage and clamp to [0, 100].  `tank_height` is
`(float)CONFIG_TANK_HEIGHT_CM`. -/
def calculate_percentage (tank_height distance_cm : ℚ) : ℚ :=
  let salt_height := tank_height - distance_cm
  let percentage := salt_height / tank_height * 100
  let clampedLow := if percentage < 0 then 0 else percentage
  if clampedLow > 100 then 100 else clampedLow

/-- Digits-and-dot rendering of a value held in tenths: `n` tenths prints as
the integer part, a dot, and one final digit. -/
def fmt1aux (n : ℕ) : String :=
  Nat.repr (n / 10) ++ "." ++ Nat.repr (n % 10)

/-- The number of tenths that `%.1f` prints: the argument scaled by ten and
rounded to the nearest integer. -/
def roundTenths (q : ℚ) : ℤ := ⌊q * 10 + 1 / 2⌋

/-- Model of the C `%.1f` conversion: one digit after the decimal point. -/
def fmt1 (q : ℚ) : String :=
  let t : ℤ := roundTenths q
  if t < 0 then "-" ++ fmt1aux t.natAbs else fmt1aux t.natAbs

/-- JSON payload of a telemetry state message, as built by the `snprintf`
format string in the `sensor_task` loop. -/
def statePayload (d p : ℚ) : String :=
  "\x7b\"distance\":" ++ fmt1 d ++ ",\"percentage\":" ++ fmt1 p ++ "\x7d"

/-- Position of `sensor_task` in its control flow: the polling wait loop, the
point between the settle delay and the discovery publish, and the infinite
telemetry loop. -/
inductive Phase
  | awaitingSession
  | publishingDiscovery
  | running
deriving DecidableEq

/-- Numeric rank of a phase, in program order. -/
def phaseIdx : Phase → ℕ
  | .awaitingSession => 0
  | .publishingDiscovery => 1
  | .running => 2

/-- Combined state of the MQTT session flag and the sensor task.
`mqttConnected` is the shared `mqtt_connected` flag; `sensorCount` is the
static counter in `read_distance_cm`; `discoveryInvocations` counts calls to
`publish_ha_discovery`; `published` records every MQTT publish call in order;
`skipLogs` counts "MQTT not connected, skipping publish" warnings; `sleeps`
records `vTaskDelay` durations in milliseconds. -/
structure SysState where
  mqttConnected : Bool
  phase : Phase
  sensorCount : ℕ
  discoveryInvocations : ℕ
  published : List MqttMsg
  skipLogs : ℕ
  sleeps : List ℕ
deriving DecidableEq

/-- Events interleaved with the sensor task: the three MQTT session events
handled by `mqtt_event_handler`, and one scheduling step of `sensor_task`. -/
inductive Ev
  | mqttConnected
  | mqttDisconnected
  | mqttError
  | taskTick
deriving DecidableEq

/-- One scheduling step of `sensor_task`.  In the wait loop it re-checks the
flag and sleeps 1000 ms, or performs the 2000 ms settle delay and moves on;
then it invokes `publish_ha_discovery` once and unconditionally enters the
telemetry loop; each telemetry cycle reads the sensor, converts, publishes if
connected (QoS 0, not retained) or logs a skip, and sleeps the configured
interval. -/
def sensorTaskTick (cfg : Config) (s : SysState) : SysState :=
  match s.phase with
  | .awaitingSession =>
      if !s.mqttConnected then
        { s with sleeps := s.sleeps ++ [1000] }
      else
        { s with sleeps := s.sleeps ++ [2000], phase := .publishingDiscovery }
  | .publishingDiscovery =>
      { s with
          published := s.published ++ publish_ha_discovery s.mqttConnected cfg.clientId,
          discoveryInvocations := s.discoveryInvocations + 1,
          phase := .running }
  | .running =>
      let count := s.sensorCount + 1
      let distance := read_distance_cm count
      let percentage := calculate_percentage (cfg.tankHeightCm : ℚ) distance
      if s.mqttConnected then
        { s with
            sensorCount := count,
            published := s.published ++
              [⟨stateTopic cfg.clientId, statePayload distance percentage, 0, false⟩],
            sleeps := s.sleeps ++ [cfg.readingIntervalSec * 1000] }
      else
        { s with
            sensorCount := count,
            skipLogs := s.skipLogs + 1,
            sleeps := s.sleeps ++ [cfg.readingIntervalSec * 1000] }

/-- System step: `mqtt_event_handler` sets or clears `mqtt_connected` (errors
are only logged), and a task tick advances `sensor_task`. -/
def step (cfg : Config) (s : SysState) : Ev → SysState
  | .mqttConnected => { s with mqttConnected := true }
  | .mqttDisconnected => { s with mqttConnected := false }
  | .mqttError => s
  | .taskTick => sensorTaskTick cfg s

/-- State at task creation: flag clear, task at the top of its wait loop. -/
def initState : SysState := ⟨false, .awaitingSession, 0, 0, [], 0, []⟩

/-- Deliver a sequence of events to the system. -/
def runTrace (cfg : Config) (s : SysState) (tr : List Ev) : SysState :=
  tr.foldl (step cfg) s

/-- A string that ends in a dot followed by exactly one digit, as `%.1f`
output does. -/
def oneDecimal (x : String) : Prop :=
  ∃ (w : String) (c : Char), x = w ++ "." ++ String.mk [c] ∧ c.isDigit = true

/-- Inductive invariant tying the task phase to the number of
`publish_ha_discovery` invocations: none before the discovery step, exactly
one from the moment the telemetry loop is entered. -/
def discInv (s : SysState) : Prop :=
  (s.phase = .awaitingSession → s.discoveryInvocations = 0) ∧
  (s.phase = .publishingDiscovery → s.discoveryInvocations = 0) ∧
  (s.phase = .running → s.discoveryInvocations = 1)

/-- Concrete configuration used for closed-form evaluations: client id
"softener", 100 cm tank, 60 s reading interval. -/
def cfgEx : Config := ⟨"softener", 100, 60⟩

/-- Concrete event trace: the session connects, the task settles and publishes
discovery, one telemetry cycle runs, the session drops mid-cycle, one cycle is
skipped, the session reconnects, and telemetry resumes. -/
def traceEx : List Ev :=
  [.mqttConnected, .taskTick, .taskTick, .taskTick,
   .mqttDisconnected, .taskTick, .mqttConnected, .taskTick]

theorem calc_pct_eq_clamp (th d : ℚ) :
    calculate_percentage th d = max 0 (min ((th - d) / th * 100) 100) := by
  unfold calculate_percentage
  simp only []
  split_ifs with h1 h2 h3 <;>
    simp [max_def, min_def] <;> split_ifs <;> linarith

theorem calc_pct_nonneg (th d : ℚ) : 0 ≤ calculate_percentage th d := by
  rw [calc_pct_eq_clamp]; exact le_max_left 0 _

theorem calc_pct_le_100 (th d : ℚ) : calculate_percentage th d ≤ 100 := by
  rw [calc_pct_eq_clamp]
  exact max_le (by norm_num) (min_le_right _ _)

theorem calc_pct_at_zero (th : ℚ) (h : 0 < th) :
    calculate_percentage th 0 = 100 := by
  rw [calc_pct_eq_clamp, sub_zero, div_self (ne_of_gt h), one_mul]
  norm_num

theorem calc_pct_at_height (th : ℚ) : calculate_percentage th th = 0 := by
  rw [calc_pct_eq_clamp, sub_self, zero_div, zero_mul]
  norm_num

theorem calc_pct_at_half (th : ℚ) (h : 0 < th) :
    calculate_percentage th (th / 2) = 50 := by
  rw [calc_pct_eq_clamp]
  have hx : (th - th / 2) / th * 100 = 50 := by
    field_simp
    ring
  rw [hx]
  norm_num

theorem calc_pct_antitone (th d1 d2 : ℚ) (h : 0 < th) (hd : d1 ≤ d2) :
    calculate_percentage th d2 ≤ calculate_percentage th d1 := by
  rw [calc_pct_eq_clamp, calc_pct_eq_clamp]
  have h1 : (th - d2) / th * 100 ≤ (th - d1) / th * 100 := by
    have h2 : (th - d2) / th ≤ (th - d1) / th :=
      (div_le_div_iff_of_pos_right h).mpr (by linarith)
    nlinarith
  exact max_le_max le_rfl (min_le_min h1 le_rfl)

theorem retryNum_le_step (m : ℕ) (s : WifiState) (e : WifiEv)
    (h : s.retryNum ≤ m) : (event_handler m s e).retryNum ≤ m := by
  cases e with
  | staStart => simpa [event_handler] using h
  | staDisconnected =>
      by_cases hl : s.retryNum < m <;> simp [event_handler, hl] <;> omega
  | gotIp => simp [event_handler]

theorem retryNum_le_run (m : ℕ) (s : WifiState) (tr : List WifiEv)
    (h : s.retryNum ≤ m) : (runWifi m s tr).retryNum ≤ m := by
  induction tr generalizing s with
  | nil => exact h
  | cons e tr ih => exact ih _ (retryNum_le_step m s e h)

theorem failBit_latched (m : ℕ) (s : WifiState) (e : WifiEv)
    (h : s.failBit = true) : (event_handler m s e).failBit = true := by
  cases e with
  | staStart => simpa [event_handler] using h
  | staDisconnected =>
      by_cases hl : s.retryNum < m <;> simp [event_handler, hl, h]
  | gotIp => simpa [event_handler] using h

theorem discInv_init : discInv initState := by
  refine ⟨fun _ => rfl, fun h => ?_, fun h => ?_⟩ <;> simp [initState] at h

theorem discInv_step (cfg : Config) (s : SysState) (e : Ev)
    (h : discInv s) : discInv (step cfg s e) := by
  obtain ⟨h0, h1, h2⟩ := h
  cases e with
  | mqttConnected => exact ⟨h0, h1, h2⟩
  | mqttDisconnected => exact ⟨h0, h1, h2⟩
  | mqttError => exact ⟨h0, h1, h2⟩
  | taskTick =>
      show discInv (sensorTaskTick cfg s)
      unfold sensorTaskTick
      cases hp : s.phase with
      | awaitingSession =>
          by_cases hc : s.mqttConnected <;>
            simp [discInv, hc, hp, h0 hp]
      | publishingDiscovery =>
          simp [discInv, hp, h1 hp]
      | running =>
          by_cases hc : s.mqttConnected <;>
            simp [discInv, hc, hp, h2 hp]

theorem discInv_run (cfg : Config) (s : SysState) (tr : List Ev)
    (h : discInv s) : discInv (runTrace cfg s tr) := by
  induction tr generalizing s with
  | nil => exact h
  | cons e tr ih => exact ih _ (discInv_step cfg s e h)

theorem discInv_le_one (s : SysState) (h : discInv s) :
    s.discoveryInvocations ≤ 1 := by
  obtain ⟨h0, h1, h2⟩ := h
  cases hp : s.phase with
  | awaitingSession => simp [h0 hp]
  | publishingDiscovery => simp [h1 hp]
  | running => simp [h2 hp]

theorem running_tick_no_discovery (cfg : Config) (s : SysState)
    (hr : s.phase = .running) :
    (step cfg s .taskTick).discoveryInvocations = s.discoveryInvocations := by
  show (sensorTaskTick cfg s).discoveryInvocations = s.discoveryInvocations
  unfold sensorTaskTick
  rw [hr]
  by_cases hc : s.mqttConnected <;> simp [hc]

theorem phaseIdx_mono (cfg : Config) (s : SysState) (e : Ev) :
    phaseIdx s.phase ≤ phaseIdx ((step cfg s e).phase) := by
  cases e with
  | mqttConnected => exact le_refl _
  | mqttDisconnected => exact le_refl _
  | mqttError => exact le_refl _
  | taskTick =>
      show phaseIdx s.phase ≤ phaseIdx (sensorTaskTick cfg s).phase
      unfold sensorTaskTick
      cases hp : s.phase with
      | awaitingSession =>
          by_cases hc : s.mqttConnected <;> simp [hc, hp, phaseIdx]
      | publishingDiscovery => simp [hp, phaseIdx]
      | running =>
          by_cases hc : s.mqttConnected <;> simp [hc, hp, phaseIdx]

theorem repr_digit (m : ℕ) (h : m < 10) :
    ∃ c : Char, Nat.repr m = String.mk [c] ∧ c.isDigit = true := by
  interval_cases m
  · exact ⟨'0', by decide, by decide⟩
  · exact ⟨'1', by decide, by decide⟩
  · exact ⟨'2', by decide, by decide⟩
  · exact ⟨'3', by decide, by decide⟩
  · exact ⟨'4', by decide, by decide⟩
  · exact ⟨'5', by decide, by decide⟩
  · exact ⟨'6', by decide, by decide⟩
  · exact ⟨'7', by decide, by decide⟩
  · exact ⟨'8', by decide, by decide⟩
  · exact ⟨'9', by decide, by decide⟩

theorem fmt1aux_oneDecimal (n : ℕ) : oneDecimal (fmt1aux n) := by
  obtain ⟨c, hc, hd⟩ := repr_digit (n % 10) (Nat.mod_lt _ (by norm_num))
  exact ⟨Nat.repr (n / 10), c, by rw [fmt1aux, hc], hd⟩

theorem fmt1_oneDecimal (q : ℚ) : oneDecimal (fmt1 q) := by
  unfold fmt1
  simp only []
  split_ifs with ht
  · obtain ⟨w, c, hw, hd⟩ := fmt1aux_oneDecimal (roundTenths q).natAbs
    exact ⟨"-" ++ w, c, by rw [hw]; simp [String.append_assoc], hd⟩
  · exact fmt1aux_oneDecimal (roundTenths q).natAbs

theorem statePayload_shape (d p : ℚ) :
    ∃ a b : String,
      statePayload d p =
        "\x7b\"distance\":" ++ a ++ ",\"percentage\":" ++ b ++ "\x7d" ∧
      oneDecimal a ∧ oneDecimal b :=
  ⟨fmt1 d, fmt1 p, rfl, fmt1_oneDecimal d, fmt1_oneDecimal p⟩

theorem running_tick_skip (cfg : Config) (s : SysState)
    (hr : s.phase = .running) (hc : s.mqttConnected = false) :
    step cfg s .taskTick =
      { s with sensorCount := s.sensorCount + 1,
               skipLogs := s.skipLogs + 1,
               sleeps := s.sleeps ++ [cfg.readingIntervalSec * 1000] } := by
  show sensorTaskTick cfg s = _
  unfold sensorTaskTick
  rw [hr]
  simp [hc]

theorem running_tick_publish (cfg : Config) (s : SysState)
    (hr : s.phase = .running) (hc : s.mqttConnected = true) :
    step cfg s .taskTick =
      { s with sensorCount := s.sensorCount + 1,
               published := s.published ++
                 [⟨stateTopic cfg.clientId,
                   statePayload (read_distance_cm (s.sensorCount + 1))
                     (calculate_percentage (cfg.tankHeightCm : ℚ)
                       (read_distance_cm (s.sensorCount + 1))),
                   0, false⟩],
               sleeps := s.sleeps ++ [cfg.readingIntervalSec * 1000] } := by
  show sensorTaskTick cfg s = _
  unfold sensorTaskTick
  rw [hr]
  simp [hc, hr]

theorem awaiting_tick_poll (cfg : Config) (s : SysState)
    (ha : s.phase = .awaitingSession) (hc : s.mqttConnected = false) :
    step cfg s .taskTick = { s with sleeps := s.sleeps ++ [1000] } := by
  show sensorTaskTick cfg s = _
  unfold sensorTaskTick
  rw [ha]
  simp [hc]

theorem awaiting_tick_settle (cfg : Config) (s : SysState)
    (ha : s.phase = .awaitingSession) (hc : s.mqttConnected = true) :
    step cfg s .taskTick =
      { s with sleeps := s.sleeps ++ [2000], phase := .publishingDiscovery } := by
  show sensorTaskTick cfg s = _
  unfold sensorTaskTick
  rw [ha]
  simp [hc]

theorem discovery_tick (cfg : Config) (s : SysState)
    (hd : s.phase = .publishingDiscovery) :
    step cfg s .taskTick =
      { s with
          published := s.published ++ publish_ha_discovery s.mqttConnected cfg.clientId,
          discoveryInvocations := s.discoveryInvocations + 1,
          phase := .running } := by
  show sensorTaskTick cfg s = _
  unfold sensorTaskTick
  rw [hd]

/-- C1 counterexample: a trace in which the broker session connects, drops and
connects again (two mqttConnected events), yet `publish_ha_discovery` is
invoked only once and only two retained discovery messages are ever published
-- not the four the claim requires after a reconnection. -/
theorem C1_counterexample :
    traceEx.count .mqttConnected = 2 ∧
    (runTrace cfgEx initState traceEx).discoveryInvocations = 1 ∧
    ¬ (runTrace cfgEx initState traceEx).discoveryInvocations = 2 ∧
    (runTrace cfgEx initState traceEx).published.countP (fun m => m.retain) = 2 ∧
    ¬ (runTrace cfgEx initState traceEx).published.countP (fun m => m.retain) = 4 := by
  refine ⟨by decide, by decide, by decide, by decide, by decide⟩

/-- C1 (amended): discovery publication is invoked exactly once per boot, at
the task transition out of the discovery phase following the first observed
connection; every execution reaching the Running phase has performed it
exactly once, it is never invoked more than once, and a Running-phase
telemetry tick never invokes it -- in particular a later
Disconnected-to-Connected transition does not re-trigger it. -/
theorem C1_discovery_once_per_boot (cfg : Config) (tr : List Ev) :
    (runTrace cfg initState tr).discoveryInvocations ≤ 1 ∧
    ((runTrace cfg initState tr).phase = .running →
      (runTrace cfg initState tr).discoveryInvocations = 1) ∧
    (∀ s : SysState, s.phase = .running →
      (step cfg s .taskTick).discoveryInvocations = s.discoveryInvocations) := by
  have h := discInv_run cfg initState tr discInv_init
  exact ⟨discInv_le_one _ h, h.2.2, fun s hs => running_tick_no_discovery cfg s hs⟩

/-- C1 witness: on the concrete reconnection trace the amended statement
evaluates as expected -- at most one invocation, and exactly one since the
trace ends in the Running phase. -/
theorem C1_discovery_once_per_boot_witness :
    (runTrace cfgEx initState traceEx).discoveryInvocations ≤ 1 ∧
    (runTrace cfgEx initState traceEx).discoveryInvocations = 1 :=
  ⟨(C1_discovery_once_per_boot cfgEx traceEx).1,
   (C1_discovery_once_per_boot cfgEx traceEx).2.1 (by decide)⟩

/-- C2: for every rational distance, `calculate_percentage` stays in [0, 100]
and equals the clamp of ((tank_height - distance) / tank_height) * 100 to
[0, 100]; percentage(0) = 100, percentage(tank_height) = 0,
percentage(tank_height / 2) = 50; and with a 100 cm tank, distance 25 gives
75, distance 150 clamps to 0, distance -10 clamps to 100. -/
theorem C2_percentage_clamp (tank_height : ℚ) (h : 0 < tank_height) :
    (∀ d : ℚ, 0 ≤ calculate_percentage tank_height d ∧
        calculate_percentage tank_height d ≤ 100) ∧
    (∀ d : ℚ, calculate_percentage tank_height d =
        max 0 (min ((tank_height - d) / tank_height * 100) 100)) ∧
    calculate_percentage tank_height 0 = 100 ∧
    calculate_percentage tank_height tank_height = 0 ∧
    calculate_percentage tank_height (tank_height / 2) = 50 ∧
    calculate_percentage 100 25 = 75 ∧
    calculate_percentage 100 150 = 0 ∧
    calculate_percentage 100 (-10) = 100 := by
  refine ⟨fun d => ⟨calc_pct_nonneg _ _, calc_pct_le_100 _ _⟩,
          fun d => calc_pct_eq_clamp _ _,
          calc_pct_at_zero _ h, calc_pct_at_height _, calc_pct_at_half _ h,
          ?_, ?_, ?_⟩ <;> rw [calc_pct_eq_clamp] <;> norm_num

/-- C2 witness: the tank-height hypothesis discharged at 100 cm, extracting
the concrete 25 cm scenario. -/
theorem C2_percentage_clamp_witness :
    (0 : ℚ) < 100 ∧ calculate_percentage 100 25 = 75 :=
  ⟨by norm_num, (C2_percentage_clamp 100 (by norm_num)).2.2.2.2.2.1⟩

/-- C3: a Running-phase telemetry tick taken while the session flag is down
publishes nothing, increments the skip log, and leaves the task in the
Running phase; and any Running-phase tick that does publish was taken with
the session flag up. -/
theorem C3_skip_when_disconnected (cfg : Config) (s : SysState)
    (hr : s.phase = .running) (hc : s.mqttConnected = false) :
    (step cfg s .taskTick).published = s.published ∧
    (step cfg s .taskTick).skipLogs = s.skipLogs + 1 ∧
    (step cfg s .taskTick).phase = .running ∧
    (∀ s2 : SysState, s2.phase = .running →
      (step cfg s2 .taskTick).published ≠ s2.published →
      s2.mqttConnected = true) := by
  rw [running_tick_skip cfg s hr hc]
  refine ⟨rfl, rfl, hr, fun s2 h2 hp => ?_⟩
  by_cases hc2 : s2.mqttConnected
  · exact hc2
  · rw [running_tick_skip cfg s2 h2 (by simpa using hc2)] at hp
    exact absurd rfl hp

/-- C3 witness: a concrete disconnected Running state publishes nothing and
logs one skip. -/
theorem C3_skip_when_disconnected_witness :
    (step cfgEx ⟨false, .running, 0, 1, [], 0, []⟩ .taskTick).published = [] ∧
    (step cfgEx ⟨false, .running, 0, 1, [], 0, []⟩ .taskTick).skipLogs = 1 :=
  ⟨(C3_skip_when_disconnected cfgEx ⟨false, .running, 0, 1, [], 0, []⟩ rfl rfl).1,
   (C3_skip_when_disconnected cfgEx ⟨false, .running, 0, 1, [], 0, []⟩ rfl rfl).2.1⟩

/-- C4: a GotAddress event resets the retry counter to 0 and sets the
connected bit; a StationDisconnected event below the retry maximum increments
the counter and issues another connection attempt; at the maximum it sets the
fail bit, doing nothing further if the fail bit is already set (the
transition to Failed happens exactly once); and the fail bit is latched under
every event. -/
theorem C4_retry_machine (maxRetry : ℕ) (s : WifiState) :
    (event_handler maxRetry s .gotIp).retryNum = 0 ∧
    (event_handler maxRetry s .gotIp).connectedBit = true ∧
    (s.retryNum < maxRetry →
      event_handler maxRetry s .staDisconnected =
        { s with connectAttempts := s.connectAttempts + 1,
                 retryNum := s.retryNum + 1 }) ∧
    (¬ s.retryNum < maxRetry →
      (event_handler maxRetry s .staDisconnected).failBit = true ∧
      (s.failBit = true → event_handler maxRetry s .staDisconnected = s)) ∧
    (∀ e : WifiEv, s.failBit = true →
      (event_handler maxRetry s e).failBit = true) := by
  refine ⟨rfl, rfl, fun hl => ?_, fun hl => ⟨?_, fun hf => ?_⟩,
          fun e hf => failBit_latched maxRetry s e hf⟩
  · simp [event_handler, hl]
  · simp [event_handler, hl]
  · obtain ⟨r, cb, fb, ca⟩ := s
    simp_all [event_handler]

/-- C4 witness: from the initial Wi-Fi state with maximum 5, a disconnect
event increments the counter and retries. -/
theorem C4_retry_machine_witness :
    0 < 5 ∧ event_handler 5 wifiInit .staDisconnected =
      { wifiInit with connectAttempts := 1, retryNum := 1 } :=
  ⟨by norm_num, (C4_retry_machine 5 wifiInit).2.2.1 (by decide)⟩

/-- C5: along every event trace discovery is published at most once (so never
twice without an intervening session establishment), and a Running-phase
telemetry tick neither invokes the discovery publisher nor adds any retained
message. -/
theorem C5_no_duplicate_discovery (cfg : Config) (tr : List Ev) :
    (runTrace cfg initState tr).discoveryInvocations ≤ 1 ∧
    (∀ s : SysState, s.phase = .running →
      (step cfg s .taskTick).discoveryInvocations = s.discoveryInvocations ∧
      (step cfg s .taskTick).published.countP (fun m => m.retain) =
        s.published.countP (fun m => m.retain)) := by
  refine ⟨discInv_le_one _ (discInv_run cfg initState tr discInv_init),
          fun s hs => ⟨running_tick_no_discovery cfg s hs, ?_⟩⟩
  by_cases hc : s.mqttConnected
  · rw [running_tick_publish cfg s hs hc]
    simp [List.countP_append]
  · rw [running_tick_skip cfg s hs (by simpa using hc)]

/-- C5 witness: evaluated on the concrete reconnection trace and on a
concrete connected Running state. -/
theorem C5_no_duplicate_discovery_witness :
    (runTrace cfgEx initState traceEx).discoveryInvocations ≤ 1 ∧
    (step cfgEx ⟨true, .running, 0, 1, [], 0, []⟩ .taskTick).discoveryInvocations = 1 :=
  ⟨(C5_no_duplicate_discovery cfgEx traceEx).1,
   ((C5_no_duplicate_discovery cfgEx traceEx).2
      ⟨true, .running, 0, 1, [], 0, []⟩ rfl).1⟩

/-- C6: `publish_ha_discovery` publishes nothing when the session flag is
down; when it is up, it publishes exactly two messages, each with QoS 1 and
retain set, on the distance and percentage config topics, whose payloads are
the two registration records -- the distance payload ending in the full
device descriptor (identifiers, name, model, manufacturer) and the percentage
payload ending in the minimal identifiers-only device reference. -/
theorem C6_discovery_messages (clientId : String) :
    publish_ha_discovery false clientId = [] ∧
    (publish_ha_discovery true clientId).length = 2 ∧
    (∀ m ∈ publish_ha_discovery true clientId, m.qos = 1 ∧ m.retain = true) ∧
    (publish_ha_discovery true clientId).map MqttMsg.topic =
      ["homeassistant/sensor/" ++ clientId ++ "/distance/config",
       "homeassistant/sensor/" ++ clientId ++ "/percentage/config"] ∧
    (publish_ha_discovery true clientId).map MqttMsg.payload =
      [distanceConfigPayload clientId, percentageConfigPayload clientId] ∧
    (∃ pre : String,
      distanceConfigPayload clientId = pre ++ fullDeviceBlock clientId ++ "\x7d") ∧
    (∃ pre : String,
      percentageConfigPayload clientId = pre ++ minimalDeviceBlock clientId ++ "\x7d") := by
  refine ⟨rfl, rfl, ?_, rfl, rfl, ⟨_, rfl⟩, ⟨_, rfl⟩⟩
  intro m hm
  simp [publish_ha_discovery] at hm
  rcases hm with rfl | rfl <;> exact ⟨rfl, rfl⟩

/-- C6 witness: evaluated at the concrete client id, including the membership
hypothesis discharged at the first of the two messages. -/
theorem C6_discovery_messages_witness :
    publish_ha_discovery false "softener" = [] ∧
    (publish_ha_discovery true "softener").length = 2 ∧
    ((⟨distanceConfigTopic "softener", distanceConfigPayload "softener",
        1, true⟩ : MqttMsg).qos = 1 ∧
     (⟨distanceConfigTopic "softener", distanceConfigPayload "softener",
        1, true⟩ : MqttMsg).retain = true) :=
  ⟨(C6_discovery_messages "softener").1,
   (C6_discovery_messages "softener").2.1,
   (C6_discovery_messages "softener").2.2.1 _ (List.mem_cons_self _ _)⟩

/-- C7: a connected Running-phase telemetry tick publishes exactly one
message on homeassistant/sensor/<client>/state with QoS 0 and retain false,
whose payload is the state JSON object, then sleeps the configured reading
interval; and every state payload consists of the distance and percentage
fields rendered with exactly one digit after the decimal point. -/
theorem C7_state_publish (cfg : Config) (s : SysState)
    (hr : s.phase = .running) (hc : s.mqttConnected = true) :
    (step cfg s .taskTick).published = s.published ++
      [⟨"homeassistant/sensor/" ++ cfg.clientId ++ "/state",
        statePayload (read_distance_cm (s.sensorCount + 1))
          (calculate_percentage (cfg.tankHeightCm : ℚ)
            (read_distance_cm (s.sensorCount + 1))),
        0, false⟩] ∧
    (step cfg s .taskTick).sleeps = s.sleeps ++ [cfg.readingIntervalSec * 1000] ∧
    (∀ d p : ℚ, ∃ a b : String,
      statePayload d p =
        "\x7b\"distance\":" ++ a ++ ",\"percentage\":" ++ b ++ "\x7d" ∧
      oneDecimal a ∧ oneDecimal b) := by
  rw [running_tick_publish cfg s hr hc]
  exact ⟨rfl, rfl, fun d p => statePayload_shape d p⟩

/-- C7 witness: a concrete connected Running state, with the hypotheses
discharged, sleeps the configured 60 s interval after its publish. -/
theorem C7_state_publish_witness :
    (step cfgEx ⟨true, .running, 0, 1, [], 0, []⟩ .taskTick).sleeps = [60000] :=
  (C7_state_publish cfgEx ⟨true, .running, 0, 1, [], 0, []⟩ rfl rfl).2.1

/-- C8: the task starts in AwaitingSession; while disconnected it only sleeps
1000 ms and stays put; on observing the connection it sleeps the 2000 ms
settle delay and moves to PublishingDiscovery; the discovery step invokes the
publisher exactly once and moves to Running unconditionally (whatever the
session flag); and no event ever moves the task to an earlier phase. -/
theorem C8_phase_order (cfg : Config) :
    initState.phase = .awaitingSession ∧
    (∀ s : SysState, s.phase = .awaitingSession → s.mqttConnected = false →
      step cfg s .taskTick = { s with sleeps := s.sleeps ++ [1000] }) ∧
    (∀ s : SysState, s.phase = .awaitingSession → s.mqttConnected = true →
      step cfg s .taskTick =
        { s with sleeps := s.sleeps ++ [2000], phase := .publishingDiscovery }) ∧
    (∀ s : SysState, s.phase = .publishingDiscovery →
      (step cfg s .taskTick).phase = .running ∧
      (step cfg s .taskTick).discoveryInvocations = s.discoveryInvocations + 1) ∧
    (∀ (s : SysState) (e : Ev),
      phaseIdx s.phase ≤ phaseIdx ((step cfg s e).phase)) := by
  refine ⟨rfl, fun s ha hc => awaiting_tick_poll cfg s ha hc,
          fun s ha hc => awaiting_tick_settle cfg s ha hc,
          fun s hd => ?_, fun s e => phaseIdx_mono cfg s e⟩
  rw [discovery_tick cfg s hd]
  exact ⟨rfl, rfl⟩

/-- C8 witness: from the initial state (awaiting, disconnected) a tick only
sleeps one second. -/
theorem C8_phase_order_witness :
    step cfgEx initState .taskTick = { initState with sleeps := [1000] } :=
  (C8_phase_order cfgEx).2.1 initState rfl rfl

/-- C9: for a positive tank height, `calculate_percentage` is monotone
non-increasing in the distance argument. -/
theorem C9_percentage_antitone (tank_height d1 d2 : ℚ)
    (h : 0 < tank_height) (hd : d1 ≤ d2) :
    calculate_percentage tank_height d2 ≤ calculate_percentage tank_height d1 :=
  calc_pct_antitone tank_height d1 d2 h hd

/-- C9 witness: with a 100 cm tank, the percentage at 150 cm is at most the
percentage at 25 cm. -/
theorem C9_percentage_antitone_witness :
    (0 : ℚ) < 100 ∧ (25 : ℚ) ≤ 150 ∧
    calculate_percentage 100 150 ≤ calculate_percentage 100 25 :=
  ⟨by norm_num, by norm_num,
   C9_percentage_antitone 100 25 150 (by norm_num) (by norm_num)⟩

/-- C10: starting from `s_retry_num = 0`, after any sequence of Wi-Fi events
the retry counter never exceeds the configured maximum. -/
theorem C10_retry_bounded (maxRetry : ℕ) (tr : List WifiEv) :
    (runWifi maxRetry wifiInit tr).retryNum ≤ maxRetry :=
  retryNum_le_run maxRetry wifiInit tr (Nat.zero_le _)

/-- C10 witness: a concrete burst of disconnect events against maximum 3. -/
theorem C10_retry_bounded_witness :
    (runWifi 3 wifiInit
      [.staStart, .staDisconnected, .staDisconnected, .staDisconnected,
       .staDisconnected, .gotIp]).retryNum ≤ 3 :=
  C10_retry_bounded 3 _

end SaltLevel

